import Mathlib

/-!
Verification of the chorgi music-theory engine.

Shallow embedding of the JavaScript sources:
- `src/js/core/music-theory.js` (note/MIDI conversion, diatonic chord generation,
  chord-degree classification),
- the pivot-chord finder (`findPivotChords`, `analyzePivotQuality`),
- the related-keys finder (`findRelatedKeys`).

JavaScript numbers that can be `undefined`/`NaN` are modelled with `Option Nat`;
the value `JSNum` returned by `noteToMidi` distinguishes `null` (regex mismatch)
from `NaN` (table miss) from a genuine integer, mirroring the JS semantics.
-/

set_option maxRecDepth 4096

/-- Result of the JS `noteToMidi`: `null` on regex mismatch, `NaN` when the
parsed note token is missing from the note table, or an integer MIDI value. -/
inductive JSNum where
  | nullV : JSNum
  | nanV : JSNum
  | intV : Nat → JSNum
  deriving DecidableEq, Repr

-- ===== Generic string helpers (embedding JS primitives) =====

/-- Leading-match test on character lists (used to embed `String.includes`). -/
def leadMatch : List Char → List Char → Bool
  | [], _ => true
  | _ :: _, [] => false
  | u :: us, v :: vs => u == v && leadMatch us vs

/-- `includesB needle hay`: JS `hay.includes(needle)` on character lists. -/
def includesB (needle : List Char) : List Char → Bool
  | [] => leadMatch needle []
  | c :: rest => leadMatch needle (c :: rest) || includesB needle rest

/-- JS `s.includes(sub)`. -/
def strIncludes (s sub : String) : Bool := includesB sub.data s.data

/-- First-match association lookup, embedding JS object property access on the
constant tables. -/
def lookupStr {α : Type} : List (String × α) → String → Option α
  | [], _ => none
  | (k, v) :: rest, key => if k == key then some v else lookupStr rest key

-- ===== Decimal digits (JS number printing and parseInt on digit strings) =====

def isDigitB (c : Char) : Bool := '0' ≤ c && c ≤ '9'

/-- One-or-more-digits test (`\d+` over an entire character list). -/
def allDigits1 (cs : List Char) : Bool := !cs.isEmpty && cs.all isDigitB

def digitVal (c : Char) : Nat := c.toNat - '0'.toNat

/-- JS `parseInt` restricted to all-digit strings. -/
def parseDigits (cs : List Char) : Nat := cs.foldl (fun a c => a * 10 + digitVal c) 0

/-- Digit character for a value `< 10`. -/
def digitChar10 (n : Nat) : Char :=
  match n with
  | 0 => '0' | 1 => '1' | 2 => '2' | 3 => '3' | 4 => '4'
  | 5 => '5' | 6 => '6' | 7 => '7' | 8 => '8' | _ => '9'

/-- Fuel-based decimal printer (structural recursion so that the kernel can
evaluate it inside `decide`). -/
def natToCharsAux : Nat → Nat → List Char
  | 0, _ => []
  | fuel + 1, n =>
    if n < 10 then [digitChar10 n]
    else natToCharsAux fuel (n / 10) ++ [digitChar10 (n % 10)]

/-- Decimal representation of a natural number, as JS prints it. -/
def natToChars (n : Nat) : List Char := natToCharsAux (n + 1) n

def natToStr (n : Nat) : String := String.mk (natToChars n)

/-- Decimal representation of an integer, as JS prints it (`-1` → `"-1"`). -/
def intToStr (i : Int) : String :=
  if i < 0 then "-" ++ String.mk (natToChars i.natAbs) else String.mk (natToChars i.toNat)

-- ===== src/js/core/music-theory.js : constants =====

/-- `NOTE_TO_MIDI`: the 17-entry note-spelling table (pitch class per name). -/
def NOTE_TO_MIDI : List (String × Nat) :=
  [("C", 0), ("C#", 1), ("Db", 1), ("D", 2), ("D#", 3), ("Eb", 3),
   ("E", 4), ("F", 5), ("F#", 6), ("Gb", 6), ("G", 7), ("G#", 8),
   ("Ab", 8), ("A", 9), ("A#", 10), ("Bb", 10), ("B", 11)]

structure ScaleDef where
  name : String
  intervals : List Nat
  chordQualities : List String
  deriving DecidableEq, Repr

/-- `SCALES`: the four built-in scale definitions. -/
def SCALES : List (String × ScaleDef) :=
  [("major", ⟨"Major", [0, 2, 4, 5, 7, 9, 11],
      ["maj7", "min7", "min7", "maj7", "dom7", "min7", "m7b5"]⟩),
   ("natural_minor", ⟨"Natural Minor", [0, 2, 3, 5, 7, 8, 10],
      ["min7", "m7b5", "maj7", "min7", "min7", "maj7", "dom7"]⟩),
   ("harmonic_minor", ⟨"Harmonic Minor", [0, 2, 3, 5, 7, 8, 11],
      ["minMaj7", "m7b5", "maj7#5", "min7", "dom7", "maj7", "dim7"]⟩),
   ("melodic_minor", ⟨"Melodic Minor", [0, 2, 3, 5, 7, 9, 11],
      ["minMaj7", "min7", "maj7#5", "dom7", "dom7", "m7b5", "m7b5"]⟩)]

/-- `CHORD_QUALITY_INTERVALS`. -/
def CHORD_QUALITY_INTERVALS : List (String × List Nat) :=
  [("maj7", [0, 4, 7, 11]), ("min7", [0, 3, 7, 10]), ("dom7", [0, 4, 7, 10]),
   ("m7b5", [0, 3, 6, 10]), ("minMaj7", [0, 3, 7, 11]), ("maj7#5", [0, 4, 8, 11]),
   ("dim7", [0, 3, 6, 9])]

/-- `CHORD_QUALITY_NAMES`. -/
def CHORD_QUALITY_NAMES : List (String × String) :=
  [("maj7", "Major 7"), ("min7", "Minor 7"), ("dom7", "Dominant 7"),
   ("m7b5", "Half-Diminished 7"), ("minMaj7", "Minor-Major 7"),
   ("maj7#5", "Major 7 #5"), ("dim7", "Diminished 7")]

def ROMAN_NUMERALS : List String := ["I", "II", "III", "IV", "V", "VI", "VII"]

def sharpNames : List String :=
  ["C", "C#", "D", "D#", "E", "F"] ++ ["F#", "G", "G#", "A", "A#", "B"]

def flatNames : List String :=
  ["C", "Db", "D", "Eb", "E", "F", "Gb", "G", "Ab", "A", "Bb", "B"]

-- ===== src/js/core/music-theory.js : functions =====

/-- `getNoteName(midiClass, preferFlats)`. -/
def getNoteName (midiClass : Nat) (preferFlats : Bool) : String :=
  (if preferFlats then flatNames else sharpNames).getD (midiClass % 12) ""

/-- `getNoteName` applied to a possibly-`NaN` JS number: indexing an array with
`NaN` yields `undefined`, which string interpolation renders as `"undefined"`. -/
def getNoteNameO (midiClass : Option Nat) (preferFlats : Bool) : String :=
  match midiClass with
  | none => "undefined"
  | some m => getNoteName m preferFlats

/-- The regex `^([A-G][#b]?)(\d+)$`, split into note token and digit tail.
The accidental branch never needs backtracking: `#`/`b` are not digits. -/
def splitNote (cs : List Char) : Option (List Char × List Char) :=
  match cs with
  | [] => none
  | c :: rest =>
    if 'A' ≤ c && c ≤ 'G' then
      match rest with
      | a :: rest2 => if a == '#' || a == 'b' then some ([c, a], rest2) else some ([c], rest)
      | [] => some ([c], [])
    else none

/-- `noteToMidi(noteName)`: `null` when the regex does not match, `NaN` when the
note token is absent from `NOTE_TO_MIDI` (JS `undefined + n`), otherwise
`NOTE_TO_MIDI[note] + (parseInt(octave) + 1) * 12`. -/
def noteToMidi (s : String) : JSNum :=
  match splitNote s.data with
  | none => .nullV
  | some (note, ds) =>
    if allDigits1 ds then
      match lookupStr NOTE_TO_MIDI (String.mk note) with
      | none => .nanV
      | some pc => .intV (pc + (parseDigits ds + 1) * 12)
    else .nullV

/-- `midiToNoteName(midi, useFlats)`. -/
def midiToNoteName (midi : Nat) (useFlats : Bool) : String :=
  (if useFlats then flatNames else sharpNames).getD (midi % 12) ""
    ++ intToStr ((midi / 12 : Nat) - (1 : Int))

/-- A generated chord instance: `{name, notes, type, roman}`. -/
structure Chord where
  name : String
  notes : List String
  type : String
  roman : String
  deriving DecidableEq, Repr

/-- JS object insertion: overwrite in place when the key exists, else append. -/
def jsObjInsert (obj : List (String × Chord)) (k : String) (v : Chord) :
    List (String × Chord) :=
  if obj.any (fun p => p.1 == k) then
    obj.map (fun p => if p.1 == k then (k, v) else p)
  else obj ++ [(k, v)]

/-- `generateDiatonicChords(rootNote, scaleType)`.

`none` models the JS `TypeError` thrown at `scale.intervals` when the scale
type is unknown.  An unknown root makes `rootMidi` `undefined`; the `Option`
then propagates exactly like JS `NaN` through the pitch arithmetic, ending in
`"undefined"` note spellings.  The inner table lookups (`CHORD_QUALITY_*`,
`ROMAN_NUMERALS`) cannot miss because every quality tag stored in `SCALES`
occurs in the quality tables; the `getD` defaults are unreachable. -/
def generateDiatonicChords (rootNote scaleType : String) :
    Option (List (String × Chord)) :=
  match lookupStr SCALES scaleType with
  | none => none
  | some scale =>
    let rootMidi := lookupStr NOTE_TO_MIDI rootNote
    let preferFlats := strIncludes scaleType "minor"
    some <| scale.intervals.enum.foldl (fun chords p =>
      let degreeIndex := p.1
      let interval := p.2
      let chordRootNote :=
        getNoteNameO (rootMidi.map (fun rm => (rm + interval) % 12)) preferFlats
      let quality := scale.chordQualities.getD degreeIndex ""
      let ints := (lookupStr CHORD_QUALITY_INTERVALS quality).getD []
      let notes := ints.map (fun int =>
        let octave := 4 + (interval + int) / 12
        let noteClass := rootMidi.map (fun rm => (rm + interval + int) % 12)
        getNoteNameO noteClass preferFlats ++ natToStr octave)
      let roman := ROMAN_NUMERALS.getD degreeIndex ""
      let romanNumeral :=
        if strIncludes quality "min" || strIncludes quality "dim" || quality == "m7b5"
        then roman.toLower else roman
      let chordSymbol :=
        if quality == "maj7" then chordRootNote ++ "maj7"
        else if quality == "min7" then chordRootNote ++ "m7"
        else if quality == "dom7" then chordRootNote ++ "7"
        else if quality == "m7b5" then chordRootNote ++ "m7b5"
        else if quality == "minMaj7" then chordRootNote ++ "mMaj7"
        else if quality == "maj7#5" then chordRootNote ++ "maj7#5"
        else if quality == "dim7" then chordRootNote ++ "dim7"
        else chordRootNote
      let romanSuffix :=
        if quality == "dom7" then "7"
        else if quality == "maj7" then "maj7"
        else if quality == "m7b5" then "m7b5"
        else if quality == "minMaj7" then "mMaj7"
        else if quality == "maj7#5" then "maj7#5"
        else if quality == "dim7" then "dim7"
        else "m7"
      jsObjInsert chords chordSymbol
        ⟨chordRootNote ++ " " ++ (lookupStr CHORD_QUALITY_NAMES quality).getD "undefined",
         notes, quality, romanNumeral ++ romanSuffix⟩) []

/-- `getChordDegree(noteMidi, chordMidiNotes)`.  An empty chord list makes the
JS interval `NaN`, the table lookup `undefined`, and the result the `'?'`
fallback. -/
def getChordDegree (noteMidi : Nat) (chordMidiNotes : List Nat) : String :=
  match chordMidiNotes with
  | [] => "?"
  | rootMidi :: _ =>
    let noteClass := noteMidi % 12
    let rootClass := rootMidi % 12
    let interval := ((((noteClass : Int) - rootClass + 12) % 12)).toNat
    if interval = 0 then "1"
    else if interval = 3 then "b3"
    else if interval = 4 then "3"
    else if interval = 6 then "b5"
    else if interval = 7 then "5"
    else if interval = 8 then "#5"
    else if interval = 9 then "6"
    else if interval = 10 then "b7"
    else if interval = 11 then "7"
    else "?"

-- ===== Pivot Chord Finder (src/unnamed/part_003) =====

/-- JS `midi % 12` where `midi` came from `noteToMidi`: `null` coerces to `0`
(so `null % 12 === 0`), `NaN % 12` is `NaN` (and JS `Set`s treat `NaN` as equal
to itself, so `none` is an honest set element). -/
def jsMod12 (x : JSNum) : Option Nat :=
  match x with
  | .nullV => some 0
  | .nanV => none
  | .intV m => some (m % 12)

/-- `normalizeChordNotes(chord)`: the set of pitch classes of the chord's
notes, modelled as a deduplicated list (JS `Set`). -/
def normalizeChordNotes (c : Chord) : List (Option Nat) :=
  (c.notes.map (fun n => jsMod12 (noteToMidi n))).dedup

/-- `areChordsEquivalent(chord1, chord2)`: same set size and membership. -/
def areChordsEquivalent (c1 c2 : Chord) : Bool :=
  let n1 := normalizeChordNotes c1
  let n2 := normalizeChordNotes c2
  n1.length == n2.length && n1.all (fun x => n2.contains x)

/-- The `degreeNames` table of `getFunctionDescription`: degree index ↦
(major label, minor label). -/
def degreeNames : List (Nat × String × String) :=
  [(0, "Tonic (I)", "Tonic (i)"), (1, "Supertonic (ii)", "Supertonic (ii°)"),
   (2, "Mediant (iii)", "Mediant (III)"), (3, "Subdominant (IV)", "Subdominant (iv)"),
   (4, "Dominant (V)", "Dominant (v)"), (5, "Submediant (vi)", "Submediant (VI)"),
   (6, "Leading Tone (vii°)", "Subtonic (VII)")]

/-- `getFunctionDescription(chordKey, scaleRoot, scaleType)`: position of the
chord key in the regenerated chord set, mapped through `degreeNames`; falls
back to the chord key itself.  `none` models the throw of the inner
`generateDiatonicChords` call on an unknown scale type. -/
def getFunctionDescription (chordKey scaleRoot scaleType : String) : Option String :=
  (generateDiatonicChords scaleRoot scaleType).map (fun chords =>
    let isMajor := scaleType == "major"
    match chords.findIdx? (fun p => p.1 == chordKey) with
    | none => chordKey
    | some degreeIndex =>
      match degreeNames.lookup degreeIndex with
      | none => chordKey
      | some names => if isMajor then names.1 else names.2)

structure PivotChord where
  chordName : String
  primaryKey : String
  secondaryKey : String
  primaryFunction : String
  secondaryFunction : String
  notes : List String
  deriving DecidableEq, Repr

/-- `findPivotChords(primaryRoot, primaryScale, secondaryRoot, secondaryScale)`:
all 7×7 pairs whose chords are pitch-class-set equal, in enumeration order.
Generation is deterministic, so the `getFunctionDescription` calls repeat the
successful generations of this branch and cannot be `none`; the `getD`
defaults are unreachable. -/
def findPivotChords (primaryRoot primaryScale secondaryRoot secondaryScale : String) :
    Option (List PivotChord) :=
  match generateDiatonicChords primaryRoot primaryScale,
        generateDiatonicChords secondaryRoot secondaryScale with
  | some primaryChords, some secondaryChords =>
    some <| primaryChords.foldl (fun acc pp =>
      secondaryChords.foldl (fun acc2 sp =>
        if areChordsEquivalent pp.2 sp.2 then
          acc2 ++ [{ chordName := pp.1, primaryKey := pp.1, secondaryKey := sp.1,
                     primaryFunction :=
                       (getFunctionDescription pp.1 primaryRoot primaryScale).getD pp.1,
                     secondaryFunction :=
                       (getFunctionDescription sp.1 secondaryRoot secondaryScale).getD sp.1,
                     notes := pp.2.notes }]
        else acc2) acc) []
  | _, _ => none

/-- `analyzePivotQuality(pivotChord, ...)`: base 5, `+3` on a `"(V)"` substring
in either functional label, `+2` on `"(IV)"`, `+1` on `"(ii)"`, `-1` on
`"(I)"` or `"(i)"`, clamped to `[0, 10]`. -/
def analyzePivotQuality (p : PivotChord) : Int :=
  let s0 : Int := 5
  let s1 := if strIncludes p.primaryFunction "(V)" || strIncludes p.secondaryFunction "(V)"
            then s0 + 3 else s0
  let s2 := if strIncludes p.primaryFunction "(IV)" || strIncludes p.secondaryFunction "(IV)"
            then s1 + 2 else s1
  let s3 := if strIncludes p.primaryFunction "(ii)" || strIncludes p.secondaryFunction "(ii)"
            then s2 + 1 else s2
  let s4 := if strIncludes p.primaryFunction "(I)" || strIncludes p.secondaryFunction "(I)" ||
               strIncludes p.primaryFunction "(i)" || strIncludes p.secondaryFunction "(i)"
            then s3 - 1 else s3
  max 0 (min 10 s4)

-- ===== Related Keys Finder (src/unnamed/part_005) =====

def CHROMATIC_NOTES : List String :=
  ["C", "C#", "D", "Eb", "E", "F", "F#", "G", "Ab", "A", "Bb", "B"]

/-- `getNoteByInterval(rootNote, semitones)`; `none` models the `undefined`
produced when the root is missing from `NOTE_TO_MIDI` (index `NaN`). -/
def getNoteByInterval (rootNote : String) (semitones : Int) : Option String :=
  (lookupStr NOTE_TO_MIDI rootNote).map (fun rootIndex =>
    let targetIndex := ((((rootIndex : Int) + semitones) % 12 + 12) % 12).toNat
    CHROMATIC_NOTES.getD targetIndex "")

structure RelatedKey where
  root : Option String
  scaleType : String
  relationship : String
  popularity : String
  deriving DecidableEq, Repr

def getRelativeKey (root scaleType : String) (popularity : String) : Option RelatedKey :=
  if scaleType == "major" then
    some ⟨getNoteByInterval root (-3), "natural_minor", "Relative Minor", popularity⟩
  else if strIncludes scaleType "minor" then
    some ⟨getNoteByInterval root 3, "major", "Relative Major", popularity⟩
  else none

def getParallelKey (root scaleType : String) (popularity : String) : Option RelatedKey :=
  if scaleType == "major" then
    some ⟨some root, "natural_minor", "Parallel Minor", popularity⟩
  else if strIncludes scaleType "minor" then
    some ⟨some root, "major", "Parallel Major", popularity⟩
  else none

def getDominantKey (root scaleType : String) (popularity : String) : RelatedKey :=
  ⟨getNoteByInterval root 7, scaleType, "Dominant (V)", popularity⟩

def getSubdominantKey (root scaleType : String) (popularity : String) : RelatedKey :=
  ⟨getNoteByInterval root 5, scaleType, "Subdominant (IV)", popularity⟩

/-- `findRelatedKeys(root, scaleType)`: the ordered relationship list of
`part_005`, with the JS `.popularity = ...` / `.relationship = ...` mutations
folded into construction. -/
def findRelatedKeys (root scaleType : String) : List RelatedKey :=
  let isMajor := scaleType == "major"
  let base : List RelatedKey :=
    ((getRelativeKey root scaleType "high").toList ++
     (getParallelKey root scaleType "high").toList ++
     [getDominantKey root scaleType "high", getSubdominantKey root scaleType "high"]) ++
    (if isMajor then
      [{ getDominantKey root "natural_minor" "high" with relationship := "Dominant Minor (v)" },
       { getSubdominantKey root "natural_minor" "high" with relationship := "Subdominant Minor (iv)" }]
     else []) ++
    [⟨getNoteByInterval root 2, if isMajor then "major" else "natural_minor",
      if isMajor then "Supertonic (II)" else "Supertonic (ii)", "medium"⟩,
     ⟨getNoteByInterval root (if isMajor then 4 else 3),
      if isMajor then "major" else "natural_minor", "Mediant (III)", "medium"⟩,
     ⟨getNoteByInterval root 9, if isMajor then "major" else "natural_minor",
      "Submediant (VI)", "medium"⟩] ++
    (if isMajor then
      [⟨getNoteByInterval root 2, "natural_minor", "Supertonic Minor (ii)", "medium"⟩,
       ⟨getNoteByInterval root 4, "natural_minor", "Mediant Minor (iii)", "medium"⟩]
     else []) ++
    (if isMajor then
      [⟨getNoteByInterval root 3, "major", "Chromatic Mediant (♭III)", "low"⟩,
       ⟨getNoteByInterval root 8, "major", "Chromatic Submediant (♭VI)", "low"⟩,
       ⟨getNoteByInterval root 1, "major", "Neapolitan (♭II)", "low"⟩,
       ⟨getNoteByInterval root 10, "major", "Subtonic (♭VII)", "low"⟩]
     else []) ++
    [⟨getNoteByInterval root (if isMajor then 11 else 10), "natural_minor",
      if isMajor then "Leading Tone (vii)" else "Subtonic (VII)", "low"⟩,
     ⟨getNoteByInterval root 6, scaleType, "Tritone (Augmented Fourth)", "low"⟩]
  base

-- ===== Claim-side definitions (phrased from the specification text) =====

/-- The 17 recognized root names (keys of `NOTE_TO_MIDI`). -/
def validRoots : List String :=
  ["C", "C#", "Db", "D", "D#", "Eb", "E", "F", "F#", "Gb", "G", "G#", "Ab", "A",
   "A#", "Bb", "B"]

/-- The four recognized scale-type tags. -/
def scaleTags : List String := ["major", "natural_minor", "harmonic_minor", "melodic_minor"]

/-- Pitch classes of the chord roots (first note of each chord) of a generated
chord set. -/
def chordRootPCList (cs : List (String × Chord)) : List Nat :=
  cs.filterMap (fun p =>
    match noteToMidi (p.2.notes.headD "") with
    | .intV m => some (m % 12)
    | _ => none)

/-- The scale's own degree pitch classes: `(root pitch class + interval) mod 12`
for each interval of the scale definition. -/
def scaleDegreePCList (r t : String) : List Nat :=
  match lookupStr SCALES t, lookupStr NOTE_TO_MIDI r with
  | some sc, some pc => sc.intervals.map (fun i => (pc + i) % 12)
  | _, _ => []

/-- The claim's note-name grammar: a letter `A`–`G`, an optional `#` or `b`,
then one or more digits. -/
def specGrammar (s : String) : Bool :=
  match s.data with
  | [] => false
  | c :: rest =>
    ('A' ≤ c && c ≤ 'G') &&
      (allDigits1 rest ||
        match rest with
        | a :: rest2 => (a == '#' || a == 'b') && allDigits1 rest2
        | [] => false)

/-- Note-token shape accepted by the grammar: letter, or letter + accidental. -/
def shapeB (name : String) : Bool :=
  match name.data with
  | [c] => 'A' ≤ c && c ≤ 'G'
  | [c, a] => ('A' ≤ c && c ≤ 'G') && (a == '#' || a == 'b')
  | _ => false

/-- C2's per-note octave formula, checked against the generated chord set:
every note of degree `interval` at quality offset `int` must be the spelling
of pitch class `(rootPc + interval + int) mod 12` with octave
`4 + ⌊(interval + int) / 12⌋`. -/
def octaveFormulaCheck (r t : String) : Bool :=
  match lookupStr SCALES t, lookupStr NOTE_TO_MIDI r, generateDiatonicChords r t with
  | some scale, some rootPc, some cs =>
    let pf := strIncludes t "minor"
    cs.length == scale.intervals.length &&
    (List.zip cs scale.intervals).all (fun q =>
      let ints := (lookupStr CHORD_QUALITY_INTERVALS q.1.2.type).getD []
      q.1.2.notes.length == ints.length &&
      (List.zip q.1.2.notes ints).all (fun w =>
        w.1 == getNoteName ((rootPc + q.2 + w.2) % 12) pf ++ natToStr (4 + (q.2 + w.2) / 12)))
  | _, _, _ => false

/-- Parse a generated note name back to a MIDI pitch (valid results only). -/
def midiOfNote (n : String) : Option Nat :=
  match noteToMidi n with
  | .intV m => some m
  | _ => none

def strictAscB : List Nat → Bool
  | [] => true
  | [_] => true
  | a :: b :: t => decide (a < b) && strictAscB (b :: t)

/-- The claimed ascent property: all notes parse and the parsed pitches are
strictly ascending. -/
def chordNotesAscend (c : Chord) : Bool :=
  let ms := c.notes.filterMap midiOfNote
  ms.length == c.notes.length && strictAscB ms

/-- The pitch-class set of Am7 as the claim spells it: {A, C, E, G}. -/
def am7PitchClasses : List (Option Nat) := [some 9, some 0, some 4, some 7]

/-- Pitch classes of a pivot chord's note list, as the pivot finder computes
them. -/
def notePCs (notes : List String) : List (Option Nat) :=
  notes.map (fun n => jsMod12 (noteToMidi n))

/-- C3's scoring formula exactly as the claim words it: the dominant bonus also
fires on the minor-mode token `"(v)"`, the subdominant bonus also on
`"(iv)"`, the supertonic bonus also on `"(II)"`. -/
def claimPivotScore (p : PivotChord) : Int :=
  let dominantBonus : Int :=
    if strIncludes p.primaryFunction "(V)" || strIncludes p.secondaryFunction "(V)" ||
       strIncludes p.primaryFunction "(v)" || strIncludes p.secondaryFunction "(v)"
    then 3 else 0
  let subdominantBonus : Int :=
    if strIncludes p.primaryFunction "(IV)" || strIncludes p.secondaryFunction "(IV)" ||
       strIncludes p.primaryFunction "(iv)" || strIncludes p.secondaryFunction "(iv)"
    then 2 else 0
  let supertonicBonus : Int :=
    if strIncludes p.primaryFunction "(ii)" || strIncludes p.secondaryFunction "(ii)" ||
       strIncludes p.primaryFunction "(II)" || strIncludes p.secondaryFunction "(II)"
    then 1 else 0
  let tonicPenalty : Int :=
    if strIncludes p.primaryFunction "(I)" || strIncludes p.secondaryFunction "(I)" ||
       strIncludes p.primaryFunction "(i)" || strIncludes p.secondaryFunction "(i)"
    then 1 else 0
  max 0 (min 10 (5 + dominantBonus + subdominantBonus + supertonicBonus - tonicPenalty))

/-- C3's scoring formula as amended: only the exact tokens the code tests for
(`"(V)"`, `"(IV)"`, `"(ii)"`, `"(I)"`/`"(i)"`), written as a sum of bonuses. -/
def amendedPivotScore (p : PivotChord) : Int :=
  let dominantBonus : Int :=
    if strIncludes p.primaryFunction "(V)" || strIncludes p.secondaryFunction "(V)"
    then 3 else 0
  let subdominantBonus : Int :=
    if strIncludes p.primaryFunction "(IV)" || strIncludes p.secondaryFunction "(IV)"
    then 2 else 0
  let supertonicBonus : Int :=
    if strIncludes p.primaryFunction "(ii)" || strIncludes p.secondaryFunction "(ii)"
    then 1 else 0
  let tonicPenalty : Int :=
    if strIncludes p.primaryFunction "(I)" || strIncludes p.secondaryFunction "(I)" ||
       strIncludes p.primaryFunction "(i)" || strIncludes p.secondaryFunction "(i)"
    then 1 else 0
  max 0 (min 10 (5 + dominantBonus + subdominantBonus + supertonicBonus - tonicPenalty))

/-- The claim-side chord-degree table: {0→"1", 3→"b3", 4→"3", 6→"b5", 7→"5",
8→"#5", 9→"6", 10→"b7", 11→"7"}, any other interval → the `"?"` sentinel. -/
def claimDegreeTable (i : Nat) : String :=
  (([(0, "1"), (3, "b3"), (4, "3"), (6, "b5"), (7, "5"), (8, "#5"), (9, "6"),
     (10, "b7"), (11, "7")] : List (Nat × String)).lookup i).getD "?"

/-- A default pivot record (for positional access in concrete statements). -/
def defaultPivot : PivotChord := ⟨"", "", "", "", "", []⟩

/-- A default chord-set entry (for positional access in concrete statements). -/
def defaultEntry : String × Chord := ("", ⟨"", [], "", ""⟩)
-- ===== Theorems =====

/-- C1: for every recognized root and scale type, `generateDiatonicChords`
returns a 7-entry chord set, every chord has exactly 4 notes, and the pitch
classes of the 7 chord roots form exactly the scale's 7 degree pitch classes. -/
theorem generator_completeness :
    ∀ r ∈ validRoots, ∀ t ∈ scaleTags,
      (generateDiatonicChords r t).isSome = true ∧
      ((generateDiatonicChords r t).getD []).length = 7 ∧
      (∀ p ∈ (generateDiatonicChords r t).getD [], p.2.notes.length = 4) ∧
      (chordRootPCList ((generateDiatonicChords r t).getD [])).toFinset
        = (scaleDegreePCList r t).toFinset := by decide

/-- Witness for C1 at root `C`, scale `major`. -/
theorem generator_completeness_witness :
    ("C" ∈ validRoots ∧ "major" ∈ scaleTags) ∧
    ((generateDiatonicChords "C" "major").getD []).length = 7 :=
  ⟨⟨by decide, by decide⟩, (generator_completeness "C" (by decide) "major" (by decide)).2.1⟩

/-- C2 counterexample: for root `B`, `major`, the first generated chord is
spelled `["B4", "D#4", "F#4", "A#4"]`, which parses back to `[71, 63, 66, 70]`
— not a strictly ascending pitch sequence. -/
theorem octave_ascent_fails_on_B_major :
    (((generateDiatonicChords "B" "major").getD []).getD 0 defaultEntry).2.notes
      = ["B4", "D#4", "F#4", "A#4"] ∧
    ((((generateDiatonicChords "B" "major").getD []).getD 0 defaultEntry).2.notes.filterMap
      midiOfNote) = [71, 63, 66, 70] ∧
    chordNotesAscend (((generateDiatonicChords "B" "major").getD []).getD 0 defaultEntry).2
      = false := by decide

/-- C2 as amended: the octave formula `4 + ⌊(interval + offset) / 12⌋` holds
for every recognized root and scale type, and the parsed note sequence of each
chord is strictly ascending when the root has pitch class 0 (root `C`). -/
theorem chord_octave_formula :
    (∀ r ∈ validRoots, ∀ t ∈ scaleTags, octaveFormulaCheck r t = true) ∧
    (∀ t ∈ scaleTags, ∀ p ∈ (generateDiatonicChords "C" t).getD [],
      chordNotesAscend p.2 = true) := by decide

/-- Witness for C2 (amended) at root `C`, scale `major`. -/
theorem chord_octave_formula_witness :
    ("C" ∈ validRoots ∧ "major" ∈ scaleTags) ∧ octaveFormulaCheck "C" "major" = true :=
  ⟨⟨by decide, by decide⟩, chord_octave_formula.1 "C" (by decide) "major" (by decide)⟩

/-- C3 counterexample: the `Em7` pivot between C major and A natural minor has
functional labels `Mediant (iii)` / `Dominant (v)`; the claimed formula (which
counts `"(v)"` as a dominant) gives it score 8, the code gives 5. -/
theorem pivot_score_formula_fails_on_minor_dominant :
    (((findPivotChords "C" "major" "A" "natural_minor").getD []).getD 2 defaultPivot).primaryFunction
      = "Mediant (iii)" ∧
    (((findPivotChords "C" "major" "A" "natural_minor").getD []).getD 2 defaultPivot).secondaryFunction
      = "Dominant (v)" ∧
    analyzePivotQuality
      (((findPivotChords "C" "major" "A" "natural_minor").getD []).getD 2 defaultPivot) = 5 ∧
    claimPivotScore
      (((findPivotChords "C" "major" "A" "natural_minor").getD []).getD 2 defaultPivot) = 8 := by
  decide

/-- C4: `findPivotChords('C','major','A','natural_minor')` succeeds with
exactly 7 pivot chords, one of which has pitch-class set {A, C, E, G} =
{9, 0, 4, 7} (the Am7 chord). -/
theorem relative_pivot_chords :
    (findPivotChords "C" "major" "A" "natural_minor").isSome = true ∧
    ((findPivotChords "C" "major" "A" "natural_minor").getD []).length = 7 ∧
    ∃ p ∈ (findPivotChords "C" "major" "A" "natural_minor").getD [],
      (notePCs p.notes).all (fun x => am7PitchClasses.contains x) = true ∧
      am7PitchClasses.all (fun x => (notePCs p.notes).contains x) = true := by decide

/-- C6 counterexample: an unrecognized root does not signal any error — the
generator returns a garbage-populated chord set (4 entries after symbol
collisions, notes spelled `"undefined<octave>"`). -/
theorem unknown_root_returns_garbage :
    (generateDiatonicChords "H" "major").isSome = true ∧
    ((generateDiatonicChords "H" "major").getD []).length = 4 ∧
    (((generateDiatonicChords "H" "major").getD []).getD 0 defaultEntry).1 = "undefinedmaj7" ∧
    (((generateDiatonicChords "H" "major").getD []).getD 0 defaultEntry).2.notes
      = ["undefined4", "undefined4", "undefined5", "undefined5"] := by decide

/-- C6 as amended: an unknown scale type makes generation fail immediately with
no result at all, but an unrecognized root silently yields a garbage chord
set. -/
theorem generation_error_behaviour :
    (∀ r t : String, lookupStr SCALES t = none → generateDiatonicChords r t = none) ∧
    (generateDiatonicChords "H" "major").isSome = true ∧
    ((generateDiatonicChords "H" "major").getD []).length = 4 := by
  refine ⟨?_, by decide, by decide⟩
  intro r t h
  unfold generateDiatonicChords
  rw [h]

/-- Witness for C6 (amended) at the unknown scale tag `"dorian"`. -/
theorem generation_error_behaviour_witness :
    lookupStr SCALES "dorian" = none ∧ generateDiatonicChords "C" "dorian" = none :=
  ⟨by decide, generation_error_behaviour.1 "C" "dorian" (by decide)⟩

/-- C7: `findRelatedKeys('C','major')` carries both the `Dominant Minor (v)`
and `Subdominant Minor (iv)` labels, while `findRelatedKeys('C','natural_minor')`
carries neither. -/
theorem related_keys_minor_variants :
    ((findRelatedKeys "C" "major").any (fun k => k.relationship == "Dominant Minor (v)")
      = true) ∧
    ((findRelatedKeys "C" "major").any (fun k => k.relationship == "Subdominant Minor (iv)")
      = true) ∧
    ((findRelatedKeys "C" "natural_minor").all
      (fun k => !(k.relationship == "Dominant Minor (v)")) = true) ∧
    ((findRelatedKeys "C" "natural_minor").all
      (fun k => !(k.relationship == "Subdominant Minor (iv)")) = true) := by decide

/-- C3 as amended: the pivot score is base 5 plus the bonuses the code
actually tests — `+3` only for the substring `"(V)"` (the minor-mode token
`"(v)"` earns nothing), `+2` only for `"(IV)"`, `+1` only for `"(ii)"`,
`-1` for `"(I)"` or `"(i)"` — clamped to `[0, 10]`; consequently every score
is an integer in `[0, 10]`. -/
theorem pivot_score_amended :
    ∀ p : PivotChord,
      analyzePivotQuality p = amendedPivotScore p ∧
      0 ≤ analyzePivotQuality p ∧ analyzePivotQuality p ≤ 10 := by
  intro p
  simp only [analyzePivotQuality, amendedPivotScore]
  split_ifs <;> omega

/-- The chord-degree classifier agrees with the claim's pitch-class formula
and table on every note pitch and non-empty chord list. -/
theorem getChordDegree_eq_claimTable (n r : Nat) (rest : List Nat) :
    getChordDegree n (r :: rest) = claimDegreeTable ((n % 12 + 12 - r % 12) % 12) := by
  simp only [getChordDegree]
  have he : ((((n % 12 : Nat) : Int) - ((r % 12 : Nat) : Int) + 12) % 12).toNat
      = (n % 12 + 12 - r % 12) % 12 := by omega
  rw [he]
  have hlt : (n % 12 + 12 - r % 12) % 12 < 12 := by omega
  generalize (n % 12 + 12 - r % 12) % 12 = k at hlt
  interval_cases k <;> decide

/-- C8: the chord-degree classifier computes
`(pitchClass(note) - pitchClass(root) + 12) mod 12`, returns the fixed table's
label, and in particular maps the root to `"1"`, a tritone above to `"b5"`,
and a semitone above to the `"?"` sentinel — never failing. -/
theorem chord_degree_classifier :
    ∀ (n r : Nat) (rest : List Nat),
      getChordDegree n (r :: rest) = claimDegreeTable ((n % 12 + 12 - r % 12) % 12) ∧
      getChordDegree r (r :: rest) = "1" ∧
      getChordDegree (r + 6) (r :: rest) = "b5" ∧
      getChordDegree (r + 1) (r :: rest) = "?" := by
  intro n r rest
  refine ⟨getChordDegree_eq_claimTable n r rest, ?_, ?_, ?_⟩
  · rw [getChordDegree_eq_claimTable]
    have h0 : (r % 12 + 12 - r % 12) % 12 = 0 := by omega
    rw [h0]; decide
  · rw [getChordDegree_eq_claimTable]
    have h6 : ((r + 6) % 12 + 12 - r % 12) % 12 = 6 := by omega
    rw [h6]; decide
  · rw [getChordDegree_eq_claimTable]
    have h1 : ((r + 1) % 12 + 12 - r % 12) % 12 = 1 := by omega
    rw [h1]; decide

-- ===== Decimal-printing lemmas (round-trip machinery) =====

theorem digitVal_digitChar10 (k : Nat) (h : k < 10) : digitVal (digitChar10 k) = k := by
  interval_cases k <;> decide

theorem isDigitB_digitChar10 (k : Nat) (h : k < 10) : isDigitB (digitChar10 k) = true := by
  interval_cases k <;> decide

theorem parseDigits_append (as : List Char) (c : Char) :
    parseDigits (as ++ [c]) = parseDigits as * 10 + digitVal c := by
  simp [parseDigits, List.foldl_append]

theorem natToCharsAux_spec :
    ∀ fuel n, n < fuel →
      natToCharsAux fuel n ≠ [] ∧ (natToCharsAux fuel n).all isDigitB = true ∧
      parseDigits (natToCharsAux fuel n) = n := by
  intro fuel
  induction fuel with
  | zero => intro n h; omega
  | succ f ih =>
    intro n h
    unfold natToCharsAux
    by_cases h10 : n < 10
    · rw [if_pos h10]
      refine ⟨by simp, by simp [isDigitB_digitChar10 n h10], ?_⟩
      simp [parseDigits, digitVal_digitChar10 n h10]
    · have hf : n / 10 < f := by omega
      obtain ⟨h1, h2, h3⟩ := ih (n / 10) hf
      rw [if_neg h10]
      refine ⟨by simp, ?_, ?_⟩
      · simp [List.all_append, h2, isDigitB_digitChar10 (n % 10) (by omega)]
      · rw [parseDigits_append, h3, digitVal_digitChar10 (n % 10) (by omega)]
        omega

theorem natToChars_spec (n : Nat) :
    natToChars n ≠ [] ∧ (natToChars n).all isDigitB = true ∧
    parseDigits (natToChars n) = n :=
  natToCharsAux_spec (n + 1) n (by omega)

theorem allDigits1_natToChars (n : Nat) : allDigits1 (natToChars n) = true := by
  obtain ⟨h1, h2, _⟩ := natToChars_spec n
  unfold allDigits1
  rcases hc : natToChars n with _ | ⟨c, cs⟩
  · exact absurd hc h1
  · rw [hc] at h2; simp [h2]

theorem digit_not_accidental (c : Char) (h : isDigitB c = true) :
    (c == '#' || c == 'b') = false := by
  by_cases h1 : c = '#'
  · subst h1; exact absurd h (by decide)
  by_cases h2 : c = 'b'
  · subst h2; exact absurd h (by decide)
  rw [Bool.or_eq_false_iff]
  exact ⟨beq_eq_false_iff_ne.mpr h1, beq_eq_false_iff_ne.mpr h2⟩

/-- C9: `noteToMidi` returns the `null` failure value exactly on the strings
that do not match the note-name grammar (letter `A`–`G`, optional `#`/`b`,
one or more digits). -/
theorem malformed_note_name :
    ∀ s : String, noteToMidi s = JSNum.nullV ↔ specGrammar s = false := by
  intro s
  obtain ⟨cs⟩ := s
  show noteToMidi (String.mk cs) = JSNum.nullV ↔ specGrammar (String.mk cs) = false
  rcases cs with _ | ⟨c, rest⟩
  · simp [noteToMidi, splitNote, specGrammar]
  · by_cases hc : ('A' ≤ c && c ≤ 'G') = true
    · rcases rest with _ | ⟨a, rest2⟩
      · simp [noteToMidi, splitNote, specGrammar, hc, allDigits1]
      · by_cases ha : (a == '#' || a == 'b') = true
        · have hnd : isDigitB a = false := by
            have ha2 : a = '#' ∨ a = 'b' := by simpa using ha
            rcases ha2 with h | h <;> (rw [h]; decide)
          by_cases hd : allDigits1 rest2 = true
          · have h1 : allDigits1 (a :: rest2) = false := by
              simp [allDigits1, hnd]
            simp only [noteToMidi, splitNote, specGrammar, hc, ha, if_pos, if_true, hd, h1]
            cases hl : lookupStr NOTE_TO_MIDI (String.mk [c, a]) <;> simp [hl]
          · have hdf : allDigits1 rest2 = false := by
              cases hq : allDigits1 rest2
              · rfl
              · exact absurd hq hd
            have h1 : allDigits1 (a :: rest2) = false := by
              simp [allDigits1, hnd]
            simp [noteToMidi, splitNote, specGrammar, hc, ha, hdf, h1]
        · have haf : (a == '#' || a == 'b') = false := by
            cases hq : (a == '#' || a == 'b')
            · rfl
            · exact absurd hq ha
          by_cases hd : allDigits1 (a :: rest2) = true
          · simp only [noteToMidi, splitNote, specGrammar, hc, haf, if_true, hd]
            cases hl : lookupStr NOTE_TO_MIDI (String.mk [c]) <;> simp [hl, hd]
          · have hdf : allDigits1 (a :: rest2) = false := by
              cases hq : allDigits1 (a :: rest2)
              · rfl
              · exact absurd hq hd
            simp [noteToMidi, splitNote, specGrammar, hc, haf, hdf]
    · have hcf : ('A' ≤ c && c ≤ 'G') = false := by
        cases hq : ('A' ≤ c && c ≤ 'G')
        · rfl
        · exact absurd hq hc
      simp [noteToMidi, splitNote, specGrammar, hcf]

theorem splitNote_digits (c : Char) (h : ('A' ≤ c && c ≤ 'G') = true) (ds : List Char)
    (hne : ds ≠ []) (hd : ds.all isDigitB = true) :
    splitNote (c :: ds) = some ([c], ds) := by
  rcases ds with _ | ⟨d, rest⟩
  · exact absurd rfl hne
  · have hdd : isDigitB d = true := by
      simp [List.all_cons] at hd
      exact hd.1
    simp [splitNote, h, digit_not_accidental d hdd]

theorem splitNote_acc (c a : Char) (h : ('A' ≤ c && c ≤ 'G') = true)
    (ha : (a == '#' || a == 'b') = true) (ds : List Char) :
    splitNote (c :: a :: ds) = some ([c, a], ds) := by
  simp [splitNote, h, ha]

theorem noteToMidi_token (note : String) (pc : Nat) (hshape : shapeB note = true)
    (hl : lookupStr NOTE_TO_MIDI note = some pc) (n : Nat) :
    noteToMidi (note ++ natToStr n) = JSNum.intV (pc + (n + 1) * 12) := by
  obtain ⟨h1, h2, h3⟩ := natToChars_spec n
  have hall : allDigits1 (natToChars n) = true := allDigits1_natToChars n
  obtain ⟨cs⟩ := note
  have hmk : (natToStr n).data = natToChars n := rfl
  rcases cs with _ | ⟨c, rest⟩
  · exact absurd hshape (by simp [shapeB])
  · rcases rest with _ | ⟨a, rest2⟩
    · have hc : ('A' ≤ c && c ≤ 'G') = true := by
        simpa [shapeB] using hshape
      have hs : splitNote (c :: natToChars n) = some ([c], natToChars n) :=
        splitNote_digits c hc (natToChars n) h1 h2
      simp [noteToMidi, hmk, hs, hall, hl, h3]
    · rcases rest2 with _ | ⟨x, xs⟩
      · have hca : (('A' ≤ c && c ≤ 'G') && (a == '#' || a == 'b')) = true := by
          simpa [shapeB] using hshape
        rw [Bool.and_eq_true] at hca
        obtain ⟨hc, ha⟩ := hca
        have hs : splitNote (c :: a :: natToChars n) = some ([c, a], natToChars n) :=
          splitNote_acc c a hc ha (natToChars n)
        simp [noteToMidi, hmk, hs, hall, hl, h3]
      · exact absurd hshape (by simp [shapeB])

theorem midiToNoteName_eval (P : Nat) (hP : 12 ≤ P) (flag : Bool) :
    midiToNoteName P flag
      = (if flag then flatNames else sharpNames).getD (P % 12) ""
          ++ natToStr (P / 12 - 1) := by
  unfold midiToNoteName intToStr
  have hneg : ¬(((P / 12 : Nat) : Int) - 1 < 0) := by omega
  rw [if_neg hneg]
  have ht : (((P / 12 : Nat) : Int) - 1).toNat = P / 12 - 1 := by omega
  rw [ht]
  rfl

theorem roundtrip_pitch_case (name : String) (pc : Nat) (hshape : shapeB name = true)
    (hl : lookupStr NOTE_TO_MIDI name = some pc) (P : Nat) (hP : 12 ≤ P)
    (hpc : P % 12 = pc) :
    noteToMidi (name ++ natToStr (P / 12 - 1)) = JSNum.intV P := by
  rw [noteToMidi_token name pc hshape hl (P / 12 - 1)]
  congr 1
  omega

theorem roundtrip_name_case (nm : String) (pc : Nat) (hpc : pc < 12) (flag : Bool)
    (hname : (if flag then flatNames else sharpNames).getD pc "" = nm) (o : Nat) :
    midiToNoteName (pc + (o + 1) * 12) flag = nm ++ natToStr o := by
  rw [midiToNoteName_eval (pc + (o + 1) * 12) (by omega) flag]
  have hm : (pc + (o + 1) * 12) % 12 = pc := by omega
  have hd : (pc + (o + 1) * 12) / 12 - 1 = o := by omega
  rw [hm, hd, hname]

/-- C5 counterexample: pitch 0 prints as `"C-1"`, which `noteToMidi` rejects
(`null`), so the pitch-side round trip fails at `P = 0`; and the grammar-valid
name `"C04"` parses to pitch 60 but prints back as `"C4"`, so the name-side
round trip fails on non-canonical octave strings. -/
theorem pitch_roundtrip_fails_at_low_pitch :
    noteToMidi (midiToNoteName 0 false) = JSNum.nullV ∧
    specGrammar "C04" = true ∧ noteToMidi "C04" = JSNum.intV 60 ∧
    midiToNoteName 60 false = "C4" ∧ ("C4" : String) ≠ "C04" := by decide

/-- C5 as amended: every table spelling with a canonically printed octave
round-trips through `noteToMidi` and back through `midiToNoteName` with the
matching flats preference; and every pitch `P ≥ 12` round-trips through
`midiToNoteName` and back through `noteToMidi` for either flag. -/
theorem pitch_note_roundtrip :
    (∀ q ∈ NOTE_TO_MIDI, ∀ o : Nat,
      noteToMidi (q.1 ++ natToStr o) = JSNum.intV (q.2 + (o + 1) * 12) ∧
      midiToNoteName (q.2 + (o + 1) * 12) (strIncludes q.1 "b") = q.1 ++ natToStr o) ∧
    (∀ P : Nat, 12 ≤ P → ∀ flag : Bool,
      noteToMidi (midiToNoteName P flag) = JSNum.intV P) := by
  constructor
  · intro q hq o
    fin_cases hq <;>
      exact ⟨noteToMidi_token _ _ (by decide) (by decide) o,
             roundtrip_name_case _ _ (by decide) _ (by decide) o⟩
  · intro P hP flag
    rw [midiToNoteName_eval P hP flag]
    have h12 : P % 12 = 0 ∨ P % 12 = 1 ∨ P % 12 = 2 ∨ P % 12 = 3 ∨ P % 12 = 4 ∨
        P % 12 = 5 ∨ P % 12 = 6 ∨ P % 12 = 7 ∨ P % 12 = 8 ∨ P % 12 = 9 ∨
        P % 12 = 10 ∨ P % 12 = 11 := by omega
    cases flag <;>
      rcases h12 with h | h | h | h | h | h | h | h | h | h | h | h <;>
        rw [h] <;>
        exact roundtrip_pitch_case _ _ (by decide) (by decide) P hP h

/-- Witness for C5 (amended) at pitch 60. -/
theorem pitch_note_roundtrip_witness :
    (12 : Nat) ≤ 60 ∧ noteToMidi (midiToNoteName 60 false) = JSNum.intV 60 :=
  ⟨by omega, pitch_note_roundtrip.2 60 (by omega) false⟩

/-- C10: grammar-valid note names whose letter+accidental token is absent from
the 17-entry table (`"Cb4"`, `"Fb3"`, `"E#5"`, `"B#2"`) make `noteToMidi`
return the `NaN` value — distinct from every valid pitch and from the `null`
grammar-failure value — and every grammar match with a table miss does so. -/
theorem table_miss_yields_nan :
    noteToMidi "Cb4" = JSNum.nanV ∧ noteToMidi "Fb3" = JSNum.nanV ∧
    noteToMidi "E#5" = JSNum.nanV ∧ noteToMidi "B#2" = JSNum.nanV ∧
    (specGrammar "Cb4" = true ∧ specGrammar "Fb3" = true ∧
     specGrammar "E#5" = true ∧ specGrammar "B#2" = true) ∧
    (JSNum.nanV ≠ JSNum.nullV ∧ ∀ m : Nat, JSNum.nanV ≠ JSNum.intV m) ∧
    (∀ (s : String) (note ds : List Char),
      splitNote s.data = some (note, ds) → allDigits1 ds = true →
      lookupStr NOTE_TO_MIDI (String.mk note) = none → noteToMidi s = JSNum.nanV) := by
  refine ⟨by decide, by decide, by decide, by decide, by decide,
    ⟨by decide, fun m h => JSNum.noConfusion h⟩, ?_⟩
  intro s note ds hs hd hl
  simp [noteToMidi, hs, hd, hl]

/-- Witness for C10 at the in-grammar, out-of-table name `"Cb7"`. -/
theorem table_miss_yields_nan_witness :
    noteToMidi "Cb7" = JSNum.nanV :=
  table_miss_yields_nan.2.2.2.2.2.2 "Cb7" ['C', 'b'] ['7'] (by decide) (by decide) (by decide)
